import Mathlib

/-!
Shallow embedding of the covid-tracer backend (src/app.py and src/models.py).

Time is modelled in seconds since an epoch (`Int`): a datetime `t` has calendar
date `t.ediv 86400` and hour-of-day `(t.emod 86400).ediv 3600`.  Calendar dates
are `Int` day numbers; `datetime.timedelta(days=1)` is `+ 1`.  Daily-key values
are the natural numbers encoded by their 64-character hexadecimal strings
(a string of 2 * DAILY_KEY_SIZE hex digits encodes exactly the naturals below
`16 ^ 64`).  Python's `sorted` and SQL `ORDER BY` are modelled with
`List.insertionSort`; `len(set(...))` is `List.dedup.length`.
-/

namespace CovidTracer

/-- `DAILY_KEY_SIZE = 256 / 8` bytes (src/app.py line 27). -/
def DAILY_KEY_SIZE : Nat := 32

/-- src/app.py line 29. -/
def INCUBATION_PERIOD : Nat := 5

/-- src/app.py line 30. -/
def SYMPTOMS_TO_VIRUS_NEGATIVE : Nat := 11

/-- `INFECTION_PERIOD = INCUBATION_PERIOD + SYMPTOMS_TO_VIRUS_NEGATIVE` (line 32). -/
def INFECTION_PERIOD : Nat := INCUBATION_PERIOD + SYMPTOMS_TO_VIRUS_NEGATIVE

def secondsPerDay : Int := 86400

/-- `datetime.date()` of a timestamp: its calendar day number. -/
def dateOf (t : Int) : Int := t.ediv secondsPerDay

/-- `datetime.time().hour` of a timestamp. -/
def hourOf (t : Int) : Int := (t.emod secondsPerDay).ediv 3600

/-- `datetime.combine(day, time(hour=h))`. -/
def combine (day : Int) (hour : Int) : Int := day * secondsPerDay + hour * 3600

/-- A row of the `daily_keys` table (src/models.py, class DailyKey). -/
structure DailyKey where
  key : Nat
  date : Int
  created_at : Int
  is_tested : Bool
deriving DecidableEq

/-- A row of the `requests` table (src/models.py, class Request). -/
structure Request where
  remote_addr : String
  user_agent : Option String
  created_at : Int
  comment : String
deriving DecidableEq

/-- The database: the two tables of src/models.py. -/
structure Store where
  keys : List DailyKey
  requests : List Request
deriving DecidableEq

/-- One element of the `cases` array returned by `GET /cases.json`. -/
structure CaseEntry where
  key : Nat
  date : Int
  type : String
deriving DecidableEq

/-- The `ORDER BY models.DailyKey.key` relation (src/app.py line 65). -/
def keyLE (a b : DailyKey) : Prop := a.key ≤ b.key

instance : DecidableRel keyLE := fun a b => inferInstanceAs (Decidable (a.key ≤ b.key))

instance : IsTotal DailyKey keyLE := ⟨fun a b => Nat.le_total a.key b.key⟩

instance : IsTrans DailyKey keyLE := ⟨fun _ _ _ h1 h2 => Nat.le_trans h1 h2⟩

/-- The twice-daily release cutoff of src/app.py lines 55-59: noon of today's
date when the current hour is at least 12, otherwise midnight of today. -/
def min_creation_at (now : Int) : Int :=
  if hourOf now ≥ 12 then combine (dateOf now) 12 else combine (dateOf now) 0

/-- Projection of a stored key to the public response shape
(src/app.py lines 70-74). -/
def projectKey (k : DailyKey) : CaseEntry :=
  { key := k.key
    date := k.date
    type := if k.is_tested then "positive" else "symptomatic" }

/-- `GET /cases.json` (src/app.py lines 42-77): filter the stored keys by the
active date window and the release cutoff, order them by key, and project. -/
def cases (store : Store) (now : Int) : List CaseEntry :=
  let today := dateOf now
  let min_date := today - (INFECTION_PERIOD : Int)
  let max_date := today
  let keys :=
    (store.keys.filter fun k =>
        decide (min_date < k.date) && decide (k.date < max_date) &&
          decide (k.created_at ≤ min_creation_at now)).insertionSort keyLE
  keys.map projectKey

/-- One member of the `keys` field list of the notify form
(src/app.py, class DailyKeyForm). -/
structure DailyKeyEntry where
  value : Nat
  date : Int
deriving DecidableEq

/-- The parsed notify form (src/app.py, class NotifyForm). -/
structure NotifyForm where
  is_tested : Bool
  comment : String
  keys : List DailyKeyEntry
deriving DecidableEq

def countErrorMsg : String := "Should contain 16 daily keys."

def gapErrorMsg : String := "Key dates should not contain gaps."

def futureErrorMsg : String := "Key dates can not all be in the future."

/-- The date-gap loop of src/app.py lines 109-114: on the sorted date list,
each date after the first must be exactly one day after its predecessor. -/
def noGaps : List Int → Bool
  | [] => true
  | [_] => true
  | d1 :: d2 :: rest => (d2 == d1 + 1) && noGaps (d2 :: rest)

/-- `NotifyForm.validate_keys` (src/app.py lines 92-117), returning the raised
`ValidationError` message, or `none` when no error is raised.  An empty key
list returns immediately; otherwise the number of distinct key values must
equal `INCUBATION_PERIOD + SYMPTOMS_TO_VIRUS_NEGATIVE`, the sorted dates must
have no gaps, and the first (smallest) sorted date must not exceed today. -/
def validate_keys (keys : List DailyKeyEntry) (today : Int) : Option String :=
  if keys.isEmpty then none
  else
    let key_values := (keys.map fun k => k.value).dedup
    if key_values.length ≠ INCUBATION_PERIOD + SYMPTOMS_TO_VIRUS_NEGATIVE then
      some countErrorMsg
    else
      let key_dates := (keys.map fun k => k.date).insertionSort (· ≤ ·)
      if noGaps key_dates = false then some gapErrorMsg
      else if key_dates.headD 0 > today then some futureErrorMsg
      else none

/-- The field validator of `DailyKeyForm.value`: a hexadecimal string of
exactly `2 * DAILY_KEY_SIZE` characters, i.e. a value below `16 ^ 64`. -/
def validKeyField (k : DailyKeyEntry) : Bool :=
  decide (k.value < 16 ^ (2 * DAILY_KEY_SIZE))

/-- `form.validate()`: every field validator passes (key value format, comment
length at most 1000) and `validate_keys` raises no error. -/
def NotifyForm.validate (form : NotifyForm) (today : Int) : Bool :=
  form.keys.all validKeyField && decide (form.comment.length ≤ 1000) &&
    (validate_keys form.keys today).isNone

/-- The inputs `notify` reads from the HTTP request. -/
structure HttpRequest where
  form : NotifyForm
  x_forwarded_for : List String
  remote_addr : String
  user_agent : Option String

/-- Source-address resolution (src/app.py lines 147-150): the first entry of
the `X-Forwarded-For` list when non-empty, else the connection address. -/
def resolveRemoteAddr (req : HttpRequest) : String :=
  match req.x_forwarded_for with
  | [] => req.remote_addr
  | a :: _ => a

/-- The four responses `notify` can return: `201 Created`, `400 Bad request`,
`403 Forbidden`, `429 Too many requests`. -/
inductive NotifyResult where
  | created
  | badRequest
  | forbidden
  | tooManyRequests
deriving DecidableEq

/-- The HTTP status code of each notify outcome. -/
def statusCode : NotifyResult → Nat
  | .created => 201
  | .badRequest => 400
  | .forbidden => 403
  | .tooManyRequests => 429

/-- The rate-limit count of src/app.py lines 154-158: request-log rows with
this source address created within the last hour. -/
def prev_reporting_count (store : Store) (remote_addr : String) (now : Int) : Nat :=
  (store.requests.filter fun r =>
      r.remote_addr == remote_addr && decide (r.created_at ≥ now - 3600)).length

/-- `POST /notify` (src/app.py lines 119-184).  Returns the response and the
committed store.  A failed validation returns 400; a submitted key value
already stored returns 403; five or more logged requests from the same source
address within an hour return 429; otherwise one `DailyKey` row per submitted
key and exactly one `Request` row are committed and 201 is returned. -/
def notify (store : Store) (req : HttpRequest) (now : Int) : NotifyResult × Store :=
  let form := req.form
  if form.validate (dateOf now) then
    let already_exists :=
      (store.keys.filter fun k => (form.keys.map fun e => e.value).contains k.key).length
    if already_exists > 0 then (NotifyResult.forbidden, store)
    else
      let remote_addr := resolveRemoteAddr req
      if prev_reporting_count store remote_addr now ≥ 5 then
        (NotifyResult.tooManyRequests, store)
      else
        let newKeys := form.keys.map fun k =>
          ({ key := k.value, date := k.date, created_at := now,
             is_tested := form.is_tested } : DailyKey)
        let newReq : Request :=
          { remote_addr := remote_addr, user_agent := req.user_agent,
            created_at := now, comment := form.comment }
        (NotifyResult.created,
          { keys := store.keys ++ newKeys, requests := store.requests ++ [newReq] })
  else (NotifyResult.badRequest, store)

/-! ### Helper lemmas -/

lemma noGaps_iff_chain : ∀ l : List Int,
    noGaps l = true ↔ List.Chain' (fun a b => b = a + 1) l
  | [] => by simp [noGaps]
  | [d] => by simp [noGaps]
  | d1 :: d2 :: rest => by
    rw [List.chain'_cons, ← noGaps_iff_chain (d2 :: rest)]
    simp [noGaps]

lemma insertionSort_int_headD_le (l : List Int) (x : Int) (hx : x ∈ l) :
    (l.insertionSort (· ≤ ·)).headD 0 ≤ x := by
  have hx' : x ∈ l.insertionSort (· ≤ ·) := (List.mem_insertionSort _).mpr hx
  have hs := List.sorted_insertionSort (· ≤ ·) l
  cases h : l.insertionSort (· ≤ ·) with
  | nil => rw [h] at hx'; cases hx'
  | cons a t =>
    rw [h] at hx' hs
    rcases List.mem_cons.mp hx' with rfl | hmem
    · simp
    · simpa using List.rel_of_sorted_cons hs _ hmem

lemma insertionSort_int_headD_mem (l : List Int) (hl : l ≠ []) :
    (l.insertionSort (· ≤ ·)).headD 0 ∈ l := by
  apply (List.mem_insertionSort (· ≤ ·)).mp
  cases h : l.insertionSort (· ≤ ·) with
  | nil =>
    have hp : List.Perm (l.insertionSort (· ≤ ·)) l := List.perm_insertionSort (· ≤ ·) l
    rw [h] at hp
    exact absurd (List.perm_nil.mp hp.symm) hl
  | cons a t => simp

lemma keysFilter_eq_nil (store : Store) (values : List Nat)
    (h : ∀ k ∈ store.keys, k.key ∉ values) :
    store.keys.filter (fun k => values.contains k.key) = [] :=
  List.filter_eq_nil_iff.mpr fun k hk => by simp [h k hk]

/-! ### Concrete inputs used by witnesses and counterexamples -/

/-- The empty database. -/
def emptyStore : Store := { keys := [], requests := [] }

/-- A well-formed 16-entry batch: distinct values 100..115, consecutive
dates 0..15. -/
def sampleBatch : List DailyKeyEntry := (List.range 16).map fun i => ⟨100 + i, (i : Int)⟩

/-- A request submitting `sampleBatch` with no forwarded-for header. -/
def sampleReq : HttpRequest :=
  { form := { is_tested := true, comment := "", keys := sampleBatch }
    x_forwarded_for := []
    remote_addr := "198.51.100.7"
    user_agent := none }

/-! ### Claim theorems -/

/-- C1 counterexample: a 17-entry batch whose first entry repeats the value of
another entry has exactly 16 distinct values, so it passes structural
validation and is accepted (201), contradicting "exactly 16 entries with
pairwise-distinct key values"; likewise the empty batch is accepted rather
than rejected with 400. -/
theorem c1_counterexample :
    ({ form := { is_tested := false, comment := "", keys := ⟨100, 16⟩ :: sampleBatch }
       x_forwarded_for := []
       remote_addr := "198.51.100.7"
       user_agent := none : HttpRequest }.form.keys.length = 17 ∧
      ¬ ((⟨100, 16⟩ :: sampleBatch).map fun e => e.value).Nodup ∧
      (notify emptyStore
        { form := { is_tested := false, comment := "", keys := ⟨100, 16⟩ :: sampleBatch }
          x_forwarded_for := []
          remote_addr := "198.51.100.7"
          user_agent := none } 0).1 = NotifyResult.created) ∧
    (notify emptyStore
      { form := { is_tested := false, comment := "", keys := [] }
        x_forwarded_for := []
        remote_addr := "198.51.100.7"
        user_agent := none } 0).1 = NotifyResult.created := by
  decide

/-- C1 (amended): a non-empty batch passes the entry-count/distinctness check
only if its number of distinct key values equals 16; any non-empty batch whose
distinct-value count differs from 16 is rejected with 400 and nothing is
stored.  (The code counts distinct values, not entries, and skips every check
when the batch is empty.) -/
theorem notify_distinct_count_rejected (store : Store) (req : HttpRequest) (now : Int)
    (hne : req.form.keys ≠ [])
    (hcount : ((req.form.keys.map fun e => e.value).dedup).length ≠ 16) :
    notify store req now = (NotifyResult.badRequest, store) := by
  have hvk : validate_keys req.form.keys (dateOf now) = some countErrorMsg := by
    simp [validate_keys, hne, INCUBATION_PERIOD, SYMPTOMS_TO_VIRUS_NEGATIVE, hcount]
  have hv : req.form.validate (dateOf now) = false := by
    simp [NotifyForm.validate, hvk]
  simp [notify, hv]

/-- C1 witness: a single-entry batch has 1 ≠ 16 distinct values and is
rejected with 400. -/
theorem notify_distinct_count_rejected_witness :
    (([⟨100, 0⟩] : List DailyKeyEntry) ≠ [] ∧
      ((([⟨100, 0⟩] : List DailyKeyEntry).map fun e => e.value).dedup).length ≠ 16) ∧
    notify emptyStore
      { form := { is_tested := false, comment := "", keys := [⟨100, 0⟩] }
        x_forwarded_for := []
        remote_addr := "198.51.100.7"
        user_agent := none } 0 = (NotifyResult.badRequest, emptyStore) :=
  ⟨⟨by decide, by decide⟩,
    notify_distinct_count_rejected emptyStore
      { form := { is_tested := false, comment := "", keys := [⟨100, 0⟩] }
        x_forwarded_for := []
        remote_addr := "198.51.100.7"
        user_agent := none } 0 (by decide) (by decide)⟩

/-- C2: a structurally valid submission one of whose key values already exists
in the store is rejected with 403 Forbidden and the store is unchanged: no key
row of the batch and no request-log row is inserted. -/
theorem notify_duplicate_rejected (store : Store) (req : HttpRequest) (now : Int)
    (hv : req.form.validate (dateOf now) = true)
    (hdup : ∃ k ∈ store.keys, k.key ∈ req.form.keys.map fun e => e.value) :
    notify store req now = (NotifyResult.forbidden, store) := by
  obtain ⟨k, hk, hmem⟩ := hdup
  have hfil : k ∈ store.keys.filter
      (fun k => (req.form.keys.map fun e => e.value).contains k.key) :=
    List.mem_filter.mpr ⟨hk, by simp [hmem]⟩
  have hpos : 0 < (store.keys.filter
      (fun k => (req.form.keys.map fun e => e.value).contains k.key)).length :=
    List.length_pos.mpr (List.ne_nil_of_mem hfil)
  simp only [notify, hv, if_true, hpos, gt_iff_lt]

/-- C2 witness: a store already holding key value 100 rejects `sampleBatch`
(which resubmits value 100) with 403, unchanged. -/
theorem notify_duplicate_rejected_witness :
    (sampleReq.form.validate (dateOf 0) = true ∧
      ∃ k ∈ ({ keys := [⟨100, 0, 0, true⟩], requests := [] } : Store).keys,
        k.key ∈ sampleReq.form.keys.map fun e => e.value) ∧
    notify { keys := [⟨100, 0, 0, true⟩], requests := [] } sampleReq 0 =
      (NotifyResult.forbidden, { keys := [⟨100, 0, 0, true⟩], requests := [] }) :=
  ⟨⟨by decide, by decide⟩,
    notify_duplicate_rejected { keys := [⟨100, 0, 0, true⟩], requests := [] }
      sampleReq 0 (by decide) (by decide)⟩

/-- C5: a submission that passes form validation with a 16-entry key batch,
none of whose values is already stored, from a source address with fewer than
5 logged requests in the trailing hour, returns 201 Created and commits
exactly 16 key rows and exactly one request-log row. -/
theorem notify_valid_commits (store : Store) (req : HttpRequest) (now : Int)
    (hv : req.form.validate (dateOf now) = true)
    (hlen : req.form.keys.length = 16)
    (hnodup : ∀ k ∈ store.keys, k.key ∉ req.form.keys.map fun e => e.value)
    (hrate : prev_reporting_count store (resolveRemoteAddr req) now < 5) :
    (notify store req now).1 = NotifyResult.created ∧
      ((notify store req now).2).keys.length = store.keys.length + 16 ∧
      ((notify store req now).2).requests.length = store.requests.length + 1 := by
  have hfil := keysFilter_eq_nil store (req.form.keys.map fun e => e.value) hnodup
  have h2 : ¬ ((store.keys.filter
      (fun k => (req.form.keys.map fun e => e.value).contains k.key)).length > 0) := by
    rw [hfil]; simp
  have hr : ¬ 5 ≤ prev_reporting_count store (resolveRemoteAddr req) now :=
    not_le.mpr hrate
  simp only [notify]
  rw [if_pos hv, if_neg h2, if_neg hr]
  simp [hlen]

/-- C5 witness: `sampleBatch` submitted to the empty store is accepted with 16
key rows and one request row. -/
theorem notify_valid_commits_witness :
    (sampleReq.form.validate (dateOf 0) = true ∧ sampleReq.form.keys.length = 16 ∧
      prev_reporting_count emptyStore (resolveRemoteAddr sampleReq) 0 < 5) ∧
    (notify emptyStore sampleReq 0).1 = NotifyResult.created ∧
      ((notify emptyStore sampleReq 0).2).keys.length = emptyStore.keys.length + 16 ∧
      ((notify emptyStore sampleReq 0).2).requests.length = emptyStore.requests.length + 1 :=
  ⟨⟨by decide, by decide, by decide⟩,
    notify_valid_commits emptyStore sampleReq 0 (by decide) (by decide)
      (by decide) (by decide)⟩

/-- C4 counterexample: a submission attempt that fails structural validation
(single-entry batch) is rejected with 400 and creates no request-log entry,
contradicting "every submission attempt creates exactly one request-log
entry". -/
theorem c4_counterexample :
    (notify emptyStore
      { form := { is_tested := false, comment := "", keys := [⟨100, 0⟩] }
        x_forwarded_for := []
        remote_addr := "198.51.100.7"
        user_agent := none } 0).1 = NotifyResult.badRequest ∧
    ((notify emptyStore
      { form := { is_tested := false, comment := "", keys := [⟨100, 0⟩] }
        x_forwarded_for := []
        remote_addr := "198.51.100.7"
        user_agent := none } 0).2).requests.length = emptyStore.requests.length := by
  decide

/-- C4 (amended): only an accepted (201) submission creates a request-log
entry, and it creates exactly one; every rejected submission (400, 403 or 429)
leaves the request log unchanged.  Consequently the rate limiter counts prior
accepted submissions, not rejected attempts. -/
theorem notify_request_log_growth (store : Store) (req : HttpRequest) (now : Int) :
    ((notify store req now).2).requests.length =
      store.requests.length +
        (if (notify store req now).1 = NotifyResult.created then 1 else 0) := by
  simp only [notify]
  split
  · split
    · simp
    · split
      · simp
      · simp
  · simp

/-- C10: an empty key batch skips every key-specific structural check; when the
comment field is valid and the source address is under the rate limit, the
submission returns 201 Created, commits zero key rows, and commits exactly one
request-log row. -/
theorem notify_empty_batch (store : Store) (req : HttpRequest) (now : Int)
    (hempty : req.form.keys = [])
    (hcomment : req.form.comment.length ≤ 1000)
    (hrate : prev_reporting_count store (resolveRemoteAddr req) now < 5) :
    (notify store req now).1 = NotifyResult.created ∧
      ((notify store req now).2).keys = store.keys ∧
      ((notify store req now).2).requests.length = store.requests.length + 1 := by
  have hv : req.form.validate (dateOf now) = true := by
    simp [NotifyForm.validate, validate_keys, hempty, hcomment]
  have h2 : ¬ ((store.keys.filter
      (fun k => (req.form.keys.map fun e => e.value).contains k.key)).length > 0) := by
    simp [hempty]
  have hr : ¬ 5 ≤ prev_reporting_count store (resolveRemoteAddr req) now :=
    not_le.mpr hrate
  simp only [notify]
  rw [if_pos hv, if_neg h2, if_neg hr]
  simp [hempty]

/-- C10 witness: a keyless submission to the empty store is accepted, stores
no key, and logs one request. -/
theorem notify_empty_batch_witness :
    (({ form := { is_tested := false, comment := "", keys := [] }
        x_forwarded_for := []
        remote_addr := "198.51.100.7"
        user_agent := none : HttpRequest }).form.keys = [] ∧
      prev_reporting_count emptyStore "198.51.100.7" 0 < 5) ∧
    (notify emptyStore
      { form := { is_tested := false, comment := "", keys := [] }
        x_forwarded_for := []
        remote_addr := "198.51.100.7"
        user_agent := none } 0).1 = NotifyResult.created ∧
      ((notify emptyStore
        { form := { is_tested := false, comment := "", keys := [] }
          x_forwarded_for := []
          remote_addr := "198.51.100.7"
          user_agent := none } 0).2).keys = emptyStore.keys ∧
      ((notify emptyStore
        { form := { is_tested := false, comment := "", keys := [] }
          x_forwarded_for := []
          remote_addr := "198.51.100.7"
          user_agent := none } 0).2).requests.length = emptyStore.requests.length + 1 :=
  ⟨⟨by decide, by decide⟩,
    notify_empty_batch emptyStore
      { form := { is_tested := false, comment := "", keys := [] }
        x_forwarded_for := []
        remote_addr := "198.51.100.7"
        user_agent := none } 0 (by decide) (by decide) (by decide)⟩

/-- C3: after structural validation and the duplicate check, a submission
whose resolved source address (first forwarded-for entry, else the connection
address) has at least 5 request-log entries within the trailing hour is
rejected with 429 and the store is unchanged; request-log entries from a
different source address never affect the rate-limit count. -/
theorem notify_rate_limited (store : Store) (req : HttpRequest) (now : Int)
    (hv : req.form.validate (dateOf now) = true)
    (hnodup : ∀ k ∈ store.keys, k.key ∉ req.form.keys.map fun e => e.value) :
    (5 ≤ prev_reporting_count store (resolveRemoteAddr req) now →
        notify store req now = (NotifyResult.tooManyRequests, store)) ∧
    (∀ r : Request, r.remote_addr ≠ resolveRemoteAddr req →
        (notify { store with requests := r :: store.requests } req now).1 =
          (notify store req now).1) := by
  have hfil := keysFilter_eq_nil store (req.form.keys.map fun e => e.value) hnodup
  have h2 : ¬ ((store.keys.filter
      (fun k => (req.form.keys.map fun e => e.value).contains k.key)).length > 0) := by
    rw [hfil]; simp
  constructor
  · intro h5
    simp only [notify]
    rw [if_pos hv, if_neg h2, if_pos h5]
  · intro r hne
    have hb : (r.remote_addr == resolveRemoteAddr req) = false :=
      beq_eq_false_iff_ne.mpr hne
    have hcnt : prev_reporting_count { store with requests := r :: store.requests }
        (resolveRemoteAddr req) now =
        prev_reporting_count store (resolveRemoteAddr req) now := by
      simp [prev_reporting_count, List.filter_cons, hb]
    simp only [notify]
    rw [if_pos hv, if_pos hv, if_neg h2, if_neg h2, hcnt]
    by_cases h5 : 5 ≤ prev_reporting_count store (resolveRemoteAddr req) now
    · rw [if_pos h5, if_pos h5]
    · rw [if_neg h5, if_neg h5]

/-- A store whose request log holds five entries from the sample address. -/
def rateStore : Store :=
  { keys := []
    requests := List.replicate 5
      { remote_addr := "198.51.100.7", user_agent := none, created_at := 0, comment := "" } }

/-- C3 witness: five logged requests from the sample address within the hour
make the sixth submission from that address return 429 with the store
unchanged. -/
theorem notify_rate_limited_witness :
    (sampleReq.form.validate (dateOf 0) = true ∧
      5 ≤ prev_reporting_count rateStore (resolveRemoteAddr sampleReq) 0) ∧
    notify rateStore sampleReq 0 = (NotifyResult.tooManyRequests, rateStore) :=
  ⟨⟨by decide, by decide⟩,
    (notify_rate_limited rateStore sampleReq 0 (by decide) (by decide)).1 (by decide)⟩

/-- C6: for a non-empty batch that passes the distinct-count and gap checks,
`validate_keys` raises the future-dates error exactly when every submitted
date (equivalently, the minimum date) is strictly after today, and accepts
exactly when some date is at most today — so a batch whose earliest date is
today or earlier is accepted even when its latest date lies in the future. -/
theorem validate_keys_future_iff (keys : List DailyKeyEntry) (today : Int)
    (hne : keys ≠ [])
    (hcount : ((keys.map fun k => k.value).dedup).length = 16)
    (hgap : noGaps ((keys.map fun k => k.date).insertionSort (· ≤ ·)) = true) :
    (validate_keys keys today = some futureErrorMsg ↔
      ∀ d ∈ keys.map fun k => k.date, today < d) ∧
    (validate_keys keys today = none ↔
      ∃ d ∈ keys.map fun k => k.date, d ≤ today) := by
  have hme : (keys.map fun k => k.date) ≠ [] := by simp [hne]
  have hv : validate_keys keys today =
      if ((keys.map fun k => k.date).insertionSort (· ≤ ·)).headD 0 > today
      then some futureErrorMsg else none := by
    simp only [validate_keys]
    rw [if_neg (by simp [hne])]
    rw [if_neg (by simp [hcount, INCUBATION_PERIOD, SYMPTOMS_TO_VIRUS_NEGATIVE])]
    rw [if_neg (by simp [hgap])]
  have hhead : (today <
        ((keys.map fun k => k.date).insertionSort (· ≤ ·)).headD 0) ↔
      ∀ d ∈ keys.map fun k => k.date, today < d := by
    constructor
    · intro hh d hd
      exact lt_of_lt_of_le hh (insertionSort_int_headD_le _ d hd)
    · intro h
      exact h _ (insertionSort_int_headD_mem _ hme)
  constructor
  · rw [hv]
    constructor
    · intro h
      by_cases hh : today <
          ((keys.map fun k => k.date).insertionSort (· ≤ ·)).headD 0
      · exact hhead.mp hh
      · rw [if_neg hh] at h; cases h
    · intro h
      rw [if_pos (hhead.mpr h)]
  · rw [hv]
    constructor
    · intro h
      by_cases hh : today <
          ((keys.map fun k => k.date).insertionSort (· ≤ ·)).headD 0
      · rw [if_pos hh] at h; cases h
      · push_neg at hh
        exact ⟨_, insertionSort_int_headD_mem _ hme, hh⟩
    · intro h
      obtain ⟨d, hd, hdle⟩ := h
      have hh : ¬ today <
          ((keys.map fun k => k.date).insertionSort (· ≤ ·)).headD 0 :=
        not_lt.mpr (le_trans (insertionSort_int_headD_le _ d hd) hdle)
      rw [if_neg hh]

/-- A 16-entry batch whose dates 1..16 all lie strictly after day 0. -/
def futureBatch : List DailyKeyEntry := (List.range 16).map fun i => ⟨100 + i, (i : Int) + 1⟩

/-- C6 witness: a batch dated days 1..16 is future-rejected at today = 0,
while `sampleBatch` (dates 0..15, so only its earliest date is not in the
future) passes `validate_keys` at today = 0. -/
theorem validate_keys_future_iff_witness :
    (futureBatch ≠ [] ∧ ((futureBatch.map fun k => k.value).dedup).length = 16 ∧
      noGaps ((futureBatch.map fun k => k.date).insertionSort (· ≤ ·)) = true) ∧
    validate_keys futureBatch 0 = some futureErrorMsg ∧
    validate_keys sampleBatch 0 = none :=
  ⟨⟨by decide, by decide, by decide⟩,
    (validate_keys_future_iff futureBatch 0 (by decide) (by decide) (by decide)).1.mpr
      (by decide),
    (validate_keys_future_iff sampleBatch 0 (by decide) (by decide) (by decide)).2.mpr
      (by decide)⟩

/-- C7: every non-empty batch whose sorted dates do not form a contiguous run
of consecutive days (a gap or a repeated date) is rejected with 400, whatever
its other content: when the distinct-count check passes the gap check fires,
and otherwise the count check already rejects. -/
theorem notify_gap_rejected (store : Store) (req : HttpRequest) (now : Int)
    (hne : req.form.keys ≠ [])
    (hgap : ¬ List.Chain' (fun a b => b = a + 1)
        ((req.form.keys.map fun k => k.date).insertionSort (· ≤ ·))) :
    notify store req now = (NotifyResult.badRequest, store) := by
  have hng : noGaps ((req.form.keys.map fun k => k.date).insertionSort (· ≤ ·)) = false := by
    cases hx : noGaps ((req.form.keys.map fun k => k.date).insertionSort (· ≤ ·)) with
    | false => rfl
    | true => exact absurd ((noGaps_iff_chain _).mp hx) hgap
  have hsome : ∃ msg, validate_keys req.form.keys (dateOf now) = some msg := by
    simp only [validate_keys]
    rw [if_neg (by simp [hne])]
    by_cases hc : ((req.form.keys.map fun k => k.value).dedup).length ≠
        INCUBATION_PERIOD + SYMPTOMS_TO_VIRUS_NEGATIVE
    · rw [if_pos hc]; exact ⟨_, rfl⟩
    · rw [if_neg hc, if_pos hng]; exact ⟨_, rfl⟩
  obtain ⟨msg, hmsg⟩ := hsome
  have hval : req.form.validate (dateOf now) = false := by
    simp [NotifyForm.validate, hmsg]
  simp [notify, hval]

/-- A 16-entry batch of distinct values whose dates skip day 8. -/
def gapBatch : List DailyKeyEntry :=
  (List.range 16).map fun i => ⟨100 + i, if i < 8 then (i : Int) else (i : Int) + 1⟩

/-- C7 witness: the batch with a date gap at day 8 is rejected with 400 even
though its 16 values are distinct and no value is already stored. -/
theorem notify_gap_rejected_witness :
    (gapBatch ≠ [] ∧
      ¬ List.Chain' (fun a b => b = a + 1)
        ((gapBatch.map fun k => k.date).insertionSort (· ≤ ·))) ∧
    notify emptyStore
      { form := { is_tested := false, comment := "", keys := gapBatch }
        x_forwarded_for := []
        remote_addr := "198.51.100.7"
        user_agent := none } 0 = (NotifyResult.badRequest, emptyStore) :=
  ⟨⟨by decide, fun hch => absurd ((noGaps_iff_chain _).mpr hch) (by decide)⟩,
    notify_gap_rejected emptyStore
      { form := { is_tested := false, comment := "", keys := gapBatch }
        x_forwarded_for := []
        remote_addr := "198.51.100.7"
        user_agent := none } 0 (by decide)
      (fun hch => absurd ((noGaps_iff_chain _).mpr hch) (by decide))⟩

/-- C8: an entry is in the `GET /cases.json` feed exactly when some stored key
has date strictly between `today - 16` and `today`, was created no later than
the release threshold (noon of today when the current hour is at least 12,
else midnight of today), and projects to `(key, date, type)` with type
`"positive"` for tested keys and `"symptomatic"` otherwise.  In particular a
key dated `today - 16` is excluded, one dated `today - 15` can be included,
and a key created at 00:01 is included by a 12:00 query the same day. -/
theorem cases_mem_iff (store : Store) (now : Int) (e : CaseEntry) :
    e ∈ cases store now ↔
      ∃ k ∈ store.keys,
        dateOf now - 16 < k.date ∧ k.date < dateOf now ∧
          k.created_at ≤ (if hourOf now ≥ 12 then combine (dateOf now) 12
            else combine (dateOf now) 0) ∧
          e = { key := k.key, date := k.date,
                type := if k.is_tested then "positive" else "symptomatic" } := by
  simp only [cases, List.mem_map, List.mem_insertionSort, List.mem_filter,
    Bool.and_eq_true, decide_eq_true_iff, min_creation_at, projectKey]
  rw [show ((INFECTION_PERIOD : Nat) : Int) = 16 from rfl]
  constructor
  · rintro ⟨k, ⟨hk, ⟨⟨h1, h2⟩, h3⟩⟩, rfl⟩
    exact ⟨k, hk, h1, h2, h3, rfl⟩
  · rintro ⟨k, hk, h1, h2, h3, rfl⟩
    exact ⟨k, ⟨hk, ⟨⟨h1, h2⟩, h3⟩⟩, rfl⟩

/-- C9: the feed is a pure function of the store contents and the frozen
`now` — two calls yield identical output — and its entries are ordered
ascending by key value (not by date). -/
theorem cases_deterministic_sorted (store : Store) (now : Int) :
    cases store now = cases store now ∧
      List.Pairwise (fun a b : CaseEntry => a.key ≤ b.key) (cases store now) := by
  refine ⟨rfl, ?_⟩
  simp only [cases]
  rw [List.pairwise_map]
  exact List.Pairwise.imp (fun h => h) (List.sorted_insertionSort keyLE _)

end CovidTracer
